import Mathlib

/-!
Verification of `vision/train/train.py` (boja): dataset split, label loading,
manifest discovery, and the orchestration flow of `main`, embedded shallowly.
-/

/-- Embedding of Python's `str.splitlines` restricted to the line breaks
`\n`, `\r` and `\r\n` (the breaks that occur in label files); a trailing
break produces no extra empty line, and the empty string yields `[]`. -/
def splitlinesAux : List Char → List Char → List String
  | [], [] => []
  | [], acc => [String.mk acc.reverse]
  | '\n' :: rest, acc => String.mk acc.reverse :: splitlinesAux rest []
  | '\r' :: '\n' :: rest, acc => String.mk acc.reverse :: splitlinesAux rest []
  | '\r' :: rest, acc => String.mk acc.reverse :: splitlinesAux rest []
  | c :: rest, acc => splitlinesAux rest (c :: acc)

/-- `content.splitlines()` on a whole file content string. -/
def splitlines (s : String) : List String :=
  splitlinesAux s.data []

/-- Embedding of `num_test = int(0.2 * len(dataset))` (train.py line 175).
For every dataset size `N`, Python's `int(0.2 * N)` truncates the product
toward zero, which equals `⌊N/5⌋`. -/
def num_test (n : Nat) : Nat := n / 5

/-- Embedding of the Python slice `l[: -1 * m]` (train.py line 177): for
`m = 0` the slice is `l[:0] = []`, for `m > 0` it is all but the last `m`
elements. -/
def pySliceToNeg (l : List Nat) (m : Nat) : List Nat :=
  if m = 0 then [] else l.take (l.length - m)

/-- Embedding of the Python slice `l[-1 * m :]` (train.py line 178): for
`m = 0` the slice is `l[0:] = l`, for `m > 0` it is the last `m` elements. -/
def pySliceFromNeg (l : List Nat) (m : Nat) : List Nat :=
  if m = 0 then l else l.drop (l.length - m)

/-- The train/test index split of train.py lines 172-178: given the random
permutation `indices` of the dataset's index range, returns
`(indices[: -1 * num_test], indices[-1 * num_test :])` with
`num_test = int(0.2 * len(dataset))` and `len(dataset) = len(indices)`. -/
def splitIndices (indices : List Nat) : List Nat × List Nat :=
  let numTest := num_test indices.length
  (pySliceToNeg indices numTest, pySliceFromNeg indices numTest)

/-- The spec's words for the test-subset size: `⌈0.2 N⌉`, the ceiling of a
fifth of the dataset size (written to be compared against the source's
`num_test`). -/
def specCeilNumTest (n : Nat) : Nat := (n + 4) / 5

/-- Modelled from the spec: `MANIFEST_FILE_TYPE` is a constant of
`vision/_settings.py`, which is not under src/; the spec's manifest example
uses the `.json` extension. The claims do not depend on its exact value. -/
def MANIFEST_FILE_TYPE : String := "json"

/-- Modelled from the spec: `MODEL_STATE_FILE_TYPE`, the weights-file
extension constant of `vision/_settings.py` (not under src/); the spec only
says the weights file is `{timestamp}-{network}.{model_ext}`. -/
def MODEL_STATE_FILE_TYPE : String := "pt"

/-- Modelled from the spec: directory-name constants of
`vision/_settings.py` (not under src/); the spec lists an image directory,
an annotation directory, a manifest directory, a model-state directory and
a logs directory under the local data directory. Exact values immaterial. -/
def IMAGE_DIR_NAME : String := "images"

/-- Modelled from the spec: see `IMAGE_DIR_NAME`. -/
def ANNOTATION_DIR_NAME : String := "annotations"

/-- Modelled from the spec: see `IMAGE_DIR_NAME`. -/
def MANIFEST_DIR_NAME : String := "manifests"

/-- Modelled from the spec: see `IMAGE_DIR_NAME`. -/
def MODEL_STATE_DIR_NAME : String := "modelstates"

/-- Modelled from the spec: see `IMAGE_DIR_NAME`. -/
def LOGS_DIR_NAME : String := "logs"

/-- Modelled from the spec: image and annotation file-extension constants
of `vision/_settings.py` (not under src/). -/
def IMAGE_FILE_TYPE : String := "jpg"

/-- Modelled from the spec: see `IMAGE_FILE_TYPE`. -/
def ANNOTATION_FILE_TYPE : String := "xml"

/-- Whether filename `f` is of file type `ft`, i.e. ends with `"." ++ ft`. -/
def hasFileType (f ft : String) : Bool :=
  ("." ++ ft).data.isSuffixOf f.data

/-- The integer embedded in a filename: the number formed by its digit
characters in order, or `none` when the name holds no digit. For the
manifest naming convention `a_10.json` this is `10`. -/
def embeddedNumber (s : String) : Option Nat :=
  let ds := s.data.filter Char.isDigit
  if ds.isEmpty then none
  else some (ds.foldl (fun n c => 10 * n + (c.toNat - 48)) 0)

/-- Modelled from the spec: `get_highest_numbered_file` lives in
`vision/_file_utils.py`, which is not under src/. Per the spec it scans a
directory for files of a fixed type, extracts the highest embedded numeric
identifier, and returns that file's path, or a sentinel none. The directory
is modelled as the list of its filenames. -/
def get_highest_numbered_file (files : List String) (fileType : String) :
    Option String :=
  let numbered := files.filterMap (fun f =>
    if hasFileType f fileType then (embeddedNumber f).map (fun n => (n, f))
    else none)
  match numbered with
  | [] => none
  | x :: xs =>
      some ((xs.foldl (fun best y => if best.1 < y.1 then y else best) x).2)

/-- Embedding of `get_newest_manifest_path` (train.py lines 74-75). -/
def get_newest_manifest_path (files : List String) : Option String :=
  get_highest_numbered_file files MANIFEST_FILE_TYPE

/-- `stats[AVERAGE_PRECISION_STAT_INDEX]` (train.py line 44). -/
def AVERAGE_PRECISION_STAT_INDEX : Nat := 0

/-- `stats[AVERAGE_RECALL_STAT_INDEX]` (train.py line 45). -/
def AVERAGE_RECALL_STAT_INDEX : Nat := 8

/-- One print event of `main`; each constructor is one `print` call site of
train.py, abstracting the formatted string. -/
inductive Msg
  | bucketAccessible (bucket : String)
  | bucketNotAccessible (bucket : String)
  | missingLabelFile
  | noLabelCategories
  | cannotFindManifest
  | usingDevice
  | datasetSizes (trainSize testSize : Nat)
  | trainingForEpochs (n : Nat)
  | modelStateSaved (path : String)
  | logFileSaved (path : String)
  | trainingComplete
  deriving DecidableEq, Repr

/-- One network operation against the remote object store; each constructor
is one `_s3_utils` call site of train.py (the existence check, the three
directory downloads, the two uploads). -/
inductive S3Op
  | bucketCheck (bucket : String)
  | downloadDir (bucket remoteDir localDir fileType : String)
  | uploadFiles (bucket : String) (files : List String) (remoteDir : String)
  deriving DecidableEq, Repr

/-- The run environment of one `main` invocation: flag values together with
the responses of the external world (filesystem contents, bucket check,
`torch.randperm`, per-epoch evaluation statistics). Evaluation scalars are
abstracted to integers since `main` only stores and plots them. -/
structure Env where
  s3BucketName : Option String
  s3DataDir : String
  localDataDir : String
  bucketExists : Bool
  labelFileExists : Bool
  labelFileContent : String
  manifestFiles : List String
  perm : List Nat
  numEpochs : Nat
  network : String
  startTime : Nat
  evalStats : Nat → List Int

/-- The observable outcome of one `main` invocation: the print trace, the
network operations attempted, the files written, and the values `main`
computes on the way (labels, manifest used, index split, metric
histories). `exitCode` is the process exit status. -/
structure RunResult where
  printed : List Msg
  s3Ops : List S3Op
  filesWritten : List String
  labels : List String
  datasetConstructed : Bool
  manifestUsed : Option String
  trainIndices : List Nat
  testIndices : List Nat
  avgPrecision : List Int
  avgRecall : List Int
  exitCode : Nat
  deriving DecidableEq, Repr

/-- The common fields of the two early returns of `main` (train.py lines
123-125 and 130-132): nothing past the label check happens. -/
def earlyResult (printed : List Msg) (ops : List S3Op) : RunResult where
  printed := printed
  s3Ops := ops
  filesWritten := []
  labels := []
  datasetConstructed := false
  manifestUsed := none
  trainIndices := []
  testIndices := []
  avgPrecision := []
  avgRecall := []
  exitCode := 0

/-- Embedding of train.py lines 82-96: `use_s3` starts true iff a bucket
name is configured; an inaccessible bucket resets it to false with a
message, an accessible one is acknowledged. Returns
`(use_s3, prints, ops)`. -/
def bucketPhase (env : Env) : Bool × List Msg × List S3Op :=
  match env.s3BucketName with
  | none => (false, [], [])
  | some b =>
      if env.bucketExists then
        (true, [Msg.bucketAccessible b], [S3Op.bucketCheck b])
      else
        (false, [Msg.bucketNotAccessible b], [S3Op.bucketCheck b])

/-- Embedding of train.py lines 97-120: when `use_s3` holds, download the
image, annotation and manifest directories from the bucket. -/
def downloadPhase (env : Env) (useS3 : Bool) (ops : List S3Op) :
    List S3Op :=
  if useS3 then
    let b := env.s3BucketName.getD ""
    ops ++
      [S3Op.downloadDir b (env.s3DataDir ++ "/" ++ IMAGE_DIR_NAME)
        (env.localDataDir ++ "/" ++ IMAGE_DIR_NAME) IMAGE_FILE_TYPE,
       S3Op.downloadDir b (env.s3DataDir ++ "/" ++ ANNOTATION_DIR_NAME)
        (env.localDataDir ++ "/" ++ ANNOTATION_DIR_NAME) ANNOTATION_FILE_TYPE,
       S3Op.downloadDir b (env.s3DataDir ++ "/" ++ MANIFEST_DIR_NAME)
        (env.localDataDir ++ "/" ++ MANIFEST_DIR_NAME) MANIFEST_FILE_TYPE]
  else ops

/-- Embedding of the epoch loop of train.py lines 214-227: starting from
empty histories, each epoch appends `stats[0]` to the precision history and
`stats[8]` to the recall history, where `stats` is that epoch's evaluation
statistics vector. -/
def trainLoop (numEpochs : Nat) (stats : Nat → List Int) :
    List Int × List Int :=
  (List.range numEpochs).foldl
    (fun h e =>
      (h.1 ++ [(stats e).getD AVERAGE_PRECISION_STAT_INDEX 0],
       h.2 ++ [(stats e).getD AVERAGE_RECALL_STAT_INDEX 0]))
    ([], [])

/-- The run name `"%s-%s" % (str(start_time), flags.FLAGS.network)`
(train.py line 234). -/
def runName (env : Env) : String :=
  toString env.startTime ++ "-" ++ env.network

/-- The weights-file path (train.py lines 229-238). -/
def modelStatePath (env : Env) : String :=
  env.localDataDir ++ "/" ++ MODEL_STATE_DIR_NAME ++ "/" ++
    runName env ++ "." ++ MODEL_STATE_FILE_TYPE

/-- The metrics-plot path (train.py lines 251-255). -/
def logPath (env : Env) : String :=
  env.localDataDir ++ "/" ++ LOGS_DIR_NAME ++ "/" ++ runName env ++ ".jpg"

/-- Embedding of train.py lines 134-273, reached once the label check has
passed with the non-empty line list `labels0`: prepend the background
class, locate the newest manifest (logging when there is none), build the
datasets and the index split, run the epoch loop, write the weights and
plot files, and upload them when `use_s3` still holds. -/
def trainPhase (env : Env) (useS3 : Bool) (printed : List Msg)
    (ops : List S3Op) (labels0 : List String) : RunResult :=
  let labels := "background" :: labels0
  let newestManifestFile := get_newest_manifest_path env.manifestFiles
  let printed1 := printed ++
    (match newestManifestFile with
     | none => [Msg.cannotFindManifest]
     | some _ => []) ++ [Msg.usingDevice]
  let indices := env.perm
  let numTest := num_test indices.length
  let trainIdx := pySliceToNeg indices numTest
  let testIdx := pySliceFromNeg indices numTest
  let printed2 := printed1 ++
    [Msg.datasetSizes trainIdx.length testIdx.length,
     Msg.trainingForEpochs env.numEpochs]
  let hist := trainLoop env.numEpochs env.evalStats
  let printed3 := printed2 ++
    [Msg.modelStateSaved (modelStatePath env),
     Msg.logFileSaved (logPath env)]
  let ops1 :=
    if useS3 then
      ops ++
        [S3Op.uploadFiles (env.s3BucketName.getD "") [modelStatePath env]
          (env.s3DataDir ++ "/" ++ MODEL_STATE_DIR_NAME),
         S3Op.uploadFiles (env.s3BucketName.getD "") [logPath env]
          (env.s3DataDir ++ "/" ++ LOGS_DIR_NAME)]
    else ops
  { printed := printed3 ++ [Msg.trainingComplete]
    s3Ops := ops1
    filesWritten := [modelStatePath env, logPath env]
    labels := labels
    datasetConstructed := true
    manifestUsed := newestManifestFile
    trainIndices := trainIdx
    testIndices := testIdx
    avgPrecision := hist.1
    avgRecall := hist.2
    exitCode := 0 }

/-- Embedding of `main` (train.py lines 78-273) as a pure function of the
run environment: the bucket check, the conditional downloads, the label
check with its two early returns, and the training phase. -/
def mainRun (env : Env) : RunResult :=
  let p := bucketPhase env
  let ops := downloadPhase env p.1 p.2.2
  if env.labelFileExists then
    let labels0 := splitlines env.labelFileContent
    if labels0.length = 0 then
      earlyResult (p.2.1 ++ [Msg.noLabelCategories]) ops
    else
      trainPhase env p.1 p.2.1 ops labels0
  else
    earlyResult (p.2.1 ++ [Msg.missingLabelFile]) ops

/-- A concrete per-epoch evaluation-statistics vector used by witnesses:
entry 0 (average precision) is 7 and entry 8 (average recall) is 9 in
every epoch. -/
def statsW : Nat → List Int := fun _ => [7, 1, 2, 3, 4, 5, 6, 7, 9]

/-- A concrete run environment used by witnesses: no bucket configured, a
two-line label file, no manifest files, a five-example dataset, two
epochs. -/
def envW : Env where
  s3BucketName := none
  s3DataDir := "data"
  localDataDir := "local"
  bucketExists := false
  labelFileExists := true
  labelFileContent := "cat\ndog"
  manifestFiles := []
  perm := [2, 0, 4, 1, 3]
  numEpochs := 2
  network := "fasterrcnn_resnet50_fpn"
  startTime := 1600000000
  evalStats := statsW

/-- `envW` with the label file absent. -/
def envNoLabel : Env := { envW with labelFileExists := false }

/-- `envW` with a bucket configured whose existence check fails. -/
def envBadBucket : Env := { envW with s3BucketName := some "mybucket" }

theorem splitIndices_of_numTest_pos (indices : List Nat)
    (h : num_test indices.length ≠ 0) :
    splitIndices indices =
      (indices.take (indices.length - num_test indices.length),
       indices.drop (indices.length - num_test indices.length)) := by
  simp [splitIndices, pySliceToNeg, pySliceFromNeg, h]

example : splitIndices [0, 1, 2, 3] = ([], [0, 1, 2, 3]) := by decide
example : splitIndices [0, 1, 2, 3, 4, 5] = ([0, 1, 2, 3, 4], [5]) := by decide
example : specCeilNumTest 6 = 2 := by decide
example :
    get_newest_manifest_path ["a_3.json", "a_10.json", "a_2.json"] =
      some "a_10.json" := by decide

/-- C1: the spec claims that for every dataset of N examples the test
subset has size floor(0.2*N) while train and test partition the indices.
The code contradicts its own comment "use 20 percent of the dataset for
testing" at N = 4: `num_test = int(0.2*4) = 0`, so the slice
`indices[: -1 * 0] = indices[:0]` makes the training subset empty and
`indices[-1 * 0 :] = indices[0:]` routes all four indices to the test
subset, whose size 4 differs from floor(0.2*4) = 0. -/
theorem C1_split_bug_eval :
    num_test 4 = 0 ∧
    splitIndices [0, 1, 2, 3] = ([], [0, 1, 2, 3]) ∧
    (splitIndices [0, 1, 2, 3]).2.length = 4 := by decide

/-- C2: for every dataset of N examples with 1 ≤ N ≤ 4, the computed test
count int(0.2*N) is 0, the slice `indices[: -1 * 0]` makes the training
subset empty, and the slice `indices[-1 * 0 :]` makes the test subset
contain all N indices. -/
theorem C2_small_dataset_split (N : Nat) (perm : List Nat)
    (hlen : perm.length = N) (h1 : 1 ≤ N) (h4 : N ≤ 4) :
    num_test N = 0 ∧
    (splitIndices perm).1 = [] ∧
    (splitIndices perm).2 = perm := by
  have h0 : num_test N = 0 := Nat.div_eq_of_lt (by omega)
  refine ⟨h0, ?_, ?_⟩ <;>
    simp [splitIndices, pySliceToNeg, pySliceFromNeg, hlen, h0]

/-- Witness for C2 at N = 2 with permutation [1, 0]. -/
theorem C2_small_dataset_split_witness :
    num_test 2 = 0 ∧
    (splitIndices [1, 0]).1 = [] ∧
    (splitIndices [1, 0]).2 = [1, 0] :=
  C2_small_dataset_split 2 [1, 0] (by decide) (by decide) (by decide)

/-- C3 counterexample: the claim says the trailing ⌈0.2N⌉ indices feed the
test subset. At N = 6 with permutation [0, 1, 2, 3, 4, 5], ⌈0.2*6⌉ = 2 but
the code's test subset is the trailing int(0.2*6) = 1 index, so the test
subset is not the trailing ⌈0.2N⌉ indices. -/
theorem C3_ceiling_counterexample :
    specCeilNumTest 6 = 2 ∧
    (splitIndices [0, 1, 2, 3, 4, 5]).2 ≠
      List.drop (6 - specCeilNumTest 6) [0, 1, 2, 3, 4, 5] := by decide

/-- C3 amended: for every dataset of N ≥ 5 examples, the assembler feeds
the first N − ⌊0.2N⌋ indices of the permutation to the training subset and
the trailing ⌊0.2N⌋ indices (floor, not ceiling) to the test subset. -/
theorem C3_floor_split (perm : List Nat) (h5 : 5 ≤ perm.length) :
    (splitIndices perm).1 =
      perm.take (perm.length - num_test perm.length) ∧
    (splitIndices perm).2 =
      perm.drop (perm.length - num_test perm.length) := by
  have h : num_test perm.length ≠ 0 :=
    (Nat.div_pos h5 (by norm_num)).ne'
  have heq := splitIndices_of_numTest_pos perm h
  exact ⟨by rw [heq], by rw [heq]⟩

/-- Witness for C3 amended at the permutation [0, 1, 2, 3, 4]. -/
theorem C3_floor_split_witness :
    (splitIndices [0, 1, 2, 3, 4]).1 = [0, 1, 2, 3] ∧
    (splitIndices [0, 1, 2, 3, 4]).2 = [4] := by
  simpa using C3_floor_split [0, 1, 2, 3, 4] (by decide)

theorem mainRun_exitCode (env : Env) : (mainRun env).exitCode = 0 := by
  by_cases hex : env.labelFileExists = true
  · by_cases hl : (splitlines env.labelFileContent).length = 0 <;>
      simp [mainRun, hex, hl, earlyResult, trainPhase]
  · simp [mainRun, hex, earlyResult]

/-- C4: for every label file with at least one non-empty line, the label
set passed to the datasets has length equal to the number of lines plus
one, its entry at index 0 is the synthetic "background" sentinel, and the
original lines follow in file order. -/
theorem C4_labels_background (env : Env)
    (hex : env.labelFileExists = true)
    (h : ∃ l ∈ splitlines env.labelFileContent, l ≠ "") :
    (mainRun env).labels.length =
      (splitlines env.labelFileContent).length + 1 ∧
    (mainRun env).labels.head? = some "background" ∧
    (mainRun env).labels.tail = splitlines env.labelFileContent := by
  obtain ⟨l, hl, -⟩ := h
  have hne : splitlines env.labelFileContent ≠ [] := List.ne_nil_of_mem hl
  have hlen : ¬(splitlines env.labelFileContent).length = 0 := by
    simpa [List.length_eq_zero] using hne
  simp [mainRun, hex, hlen, trainPhase]

/-- Witness for C4 on the two-line label file "cat\ndog". -/
theorem C4_labels_background_witness :
    (mainRun envW).labels.length = (splitlines "cat\ndog").length + 1 ∧
    (mainRun envW).labels.head? = some "background" ∧
    (mainRun envW).labels.tail = splitlines "cat\ndog" :=
  C4_labels_background envW rfl ⟨"cat", by decide, by decide⟩

/-- C5: for every run whose label file is absent or empty, `main` prints a
message and returns: the last print event is the missing-file or
no-categories message, no dataset is constructed, no weights or plot file
is written and the exit code is 0; moreover no environment at all gives a
non-zero exit code. -/
theorem C5_label_abort (env : Env)
    (h : env.labelFileExists = false ∨ env.labelFileContent = "") :
    ((mainRun env).printed.getLast? = some Msg.missingLabelFile ∨
     (mainRun env).printed.getLast? = some Msg.noLabelCategories) ∧
    (mainRun env).datasetConstructed = false ∧
    (mainRun env).filesWritten = [] ∧
    (mainRun env).exitCode = 0 ∧
    ∀ e : Env, (mainRun e).exitCode = 0 := by
  have h0 : splitlines "" = [] := rfl
  have key : ((mainRun env).printed.getLast? = some Msg.missingLabelFile ∨
      (mainRun env).printed.getLast? = some Msg.noLabelCategories) ∧
      (mainRun env).datasetConstructed = false ∧
      (mainRun env).filesWritten = [] := by
    by_cases hex : env.labelFileExists = true
    · rcases h with h | h
      · rw [hex] at h; cases h
      · refine ⟨Or.inr ?_, ?_, ?_⟩ <;>
          simp [mainRun, hex, h, h0, earlyResult, List.getLast?_concat]
    · refine ⟨Or.inl ?_, ?_, ?_⟩ <;>
        simp [mainRun, hex, earlyResult, List.getLast?_concat]
  exact ⟨key.1, key.2.1, key.2.2, mainRun_exitCode env,
    fun e => mainRun_exitCode e⟩

/-- Witness for C5 on the environment with the label file absent. -/
theorem C5_label_abort_witness :
    ((mainRun envNoLabel).printed.getLast? = some Msg.missingLabelFile ∨
     (mainRun envNoLabel).printed.getLast? = some Msg.noLabelCategories) ∧
    (mainRun envNoLabel).datasetConstructed = false ∧
    (mainRun envNoLabel).filesWritten = [] ∧
    (mainRun envNoLabel).exitCode = 0 ∧
    ∀ e : Env, (mainRun e).exitCode = 0 :=
  C5_label_abort envNoLabel (Or.inl rfl)

/-- C6: for every run that passes the label check and in which manifest
discovery returns the sentinel `none`, `main` only prints the
cannot-find-manifest message and does not abort: the dataset is still
constructed, with `none` as the manifest value. -/
theorem C6_manifest_missing_continues (env : Env)
    (hex : env.labelFileExists = true)
    (hl : splitlines env.labelFileContent ≠ [])
    (hm : get_newest_manifest_path env.manifestFiles = none) :
    Msg.cannotFindManifest ∈ (mainRun env).printed ∧
    (mainRun env).datasetConstructed = true ∧
    (mainRun env).manifestUsed = none := by
  have hlen : ¬(splitlines env.labelFileContent).length = 0 := by
    simpa [List.length_eq_zero] using hl
  simp [mainRun, hex, hlen, trainPhase, hm]

/-- Witness for C6 on an environment with an empty manifest directory. -/
theorem C6_manifest_missing_continues_witness :
    Msg.cannotFindManifest ∈ (mainRun envW).printed ∧
    (mainRun envW).datasetConstructed = true ∧
    (mainRun envW).manifestUsed = none :=
  C6_manifest_missing_continues envW rfl (by decide) rfl

theorem foldlMax_spec (l : List (Nat × String)) (x : Nat × String) :
    l.foldl (fun best y => if best.1 < y.1 then y else best) x ∈ x :: l ∧
    ∀ y ∈ x :: l,
      y.1 ≤ (l.foldl (fun best y => if best.1 < y.1 then y else best) x).1 := by
  induction l generalizing x with
  | nil => simp
  | cons a l ih =>
      simp only [List.foldl_cons]
      obtain ⟨ih1, ih2⟩ := ih (if x.1 < a.1 then a else x)
      have hmem : (if x.1 < a.1 then a else x) ∈ x :: a :: l := by
        split_ifs <;> simp
      have hx : x.1 ≤ (if x.1 < a.1 then a else x).1 := by
        split_ifs with hc <;> omega
      have ha : a.1 ≤ (if x.1 < a.1 then a else x).1 := by
        split_ifs with hc <;> omega
      refine ⟨?_, ?_⟩
      · rcases List.mem_cons.mp ih1 with h | h
        · rw [h]; exact hmem
        · exact List.mem_cons_of_mem _ (List.mem_cons_of_mem _ h)
      · intro y hy
        rcases List.mem_cons.mp hy with rfl | hy
        · exact le_trans hx (ih2 _ (List.mem_cons_self _ _))
        · rcases List.mem_cons.mp hy with rfl | hy
          · exact le_trans ha (ih2 _ (List.mem_cons_self _ _))
          · exact ih2 _ (List.mem_cons_of_mem _ hy)

/-- C7: whenever manifest discovery returns a path, that file's embedded
number is maximal among the manifest-typed files of the directory. -/
theorem C7_newest_manifest (files : List String) (f : String)
    (h : get_newest_manifest_path files = some f) :
    ∃ m, embeddedNumber f = some m ∧
      ∀ g ∈ files, hasFileType g MANIFEST_FILE_TYPE = true →
        ∀ n, embeddedNumber g = some n → n ≤ m := by
  unfold get_newest_manifest_path get_highest_numbered_file at h
  cases hcase : files.filterMap (fun fn =>
      if hasFileType fn MANIFEST_FILE_TYPE then
        (embeddedNumber fn).map (fun n => (n, fn))
      else none) with
  | nil => rw [hcase] at h; cases h
  | cons x xs =>
      rw [hcase] at h
      obtain ⟨hr1, hr2⟩ := foldlMax_spec xs x
      have hf : (xs.foldl (fun best y => if best.1 < y.1 then y else best)
          x).2 = f := by
        simpa using h
      rw [← hcase] at hr1
      obtain ⟨g, hg, hgeq⟩ := List.mem_filterMap.mp hr1
      by_cases hft : hasFileType g MANIFEST_FILE_TYPE = true
      · rw [if_pos hft] at hgeq
        obtain ⟨n0, hn0, hpair⟩ := Option.map_eq_some'.mp hgeq
        have hfg : f = g := by rw [← hf, ← hpair]
        have hm0 : (xs.foldl (fun best y => if best.1 < y.1 then y else best)
            x).1 = n0 := by rw [← hpair]
        refine ⟨n0, by rw [hfg]; exact hn0, ?_⟩
        intro g' hg' hft' n hn
        have hmem' : (n, g') ∈ x :: xs := by
          rw [← hcase]
          refine List.mem_filterMap.mpr ⟨g', hg', ?_⟩
          rw [if_pos hft', hn]
          rfl
        have := hr2 _ hmem'
        rwa [hm0] at this
      · rw [if_neg hft] at hgeq; cases hgeq

/-- Witness for C7 on the directory {a_3.json, a_10.json, a_2.json}: the
returned path is a_10.json and its embedded number 10 is maximal. -/
theorem C7_newest_manifest_witness :
    get_newest_manifest_path ["a_3.json", "a_10.json", "a_2.json"] =
      some "a_10.json" ∧
    ∃ m, embeddedNumber "a_10.json" = some m ∧
      ∀ g ∈ ["a_3.json", "a_10.json", "a_2.json"],
        hasFileType g MANIFEST_FILE_TYPE = true →
        ∀ n, embeddedNumber g = some n → n ≤ m :=
  ⟨by decide, C7_newest_manifest _ _ (by decide)⟩

/-- C8 counterexample: a run with no bucket configured but an absent label
file attempts no network operation yet also writes no weights or plot
file, so the claim "every run started with no s3_bucket_name still writes
the local weights file and plot file" fails as stated. -/
theorem C8_missing_label_counterexample :
    envNoLabel.s3BucketName = none ∧
    (mainRun envNoLabel).s3Ops = [] ∧
    (mainRun envNoLabel).filesWritten = [] := by decide

/-- C8 amended: for every run with no s3_bucket_name configured whose
label file is present with at least one line, no network operation is
attempted and the run writes exactly the local weights file and plot
file, both named from the run's start timestamp and chosen network. -/
theorem C8_local_artifacts (env : Env)
    (hb : env.s3BucketName = none)
    (hex : env.labelFileExists = true)
    (hl : splitlines env.labelFileContent ≠ []) :
    (mainRun env).s3Ops = [] ∧
    (mainRun env).filesWritten = [modelStatePath env, logPath env] ∧
    modelStatePath env =
      env.localDataDir ++ "/" ++ MODEL_STATE_DIR_NAME ++ "/" ++
        (toString env.startTime ++ "-" ++ env.network) ++ "." ++
        MODEL_STATE_FILE_TYPE ∧
    logPath env =
      env.localDataDir ++ "/" ++ LOGS_DIR_NAME ++ "/" ++
        (toString env.startTime ++ "-" ++ env.network) ++ ".jpg" := by
  have hlen : ¬(splitlines env.labelFileContent).length = 0 := by
    simpa [List.length_eq_zero] using hl
  refine ⟨?_, ?_, rfl, rfl⟩ <;>
    simp [mainRun, bucketPhase, downloadPhase, trainPhase, hb, hex, hlen]

/-- Witness for C8 amended on the bucket-free environment `envW`. -/
theorem C8_local_artifacts_witness :
    (mainRun envW).s3Ops = [] ∧
    (mainRun envW).filesWritten = [modelStatePath envW, logPath envW] ∧
    modelStatePath envW =
      envW.localDataDir ++ "/" ++ MODEL_STATE_DIR_NAME ++ "/" ++
        (toString envW.startTime ++ "-" ++ envW.network) ++ "." ++
        MODEL_STATE_FILE_TYPE ∧
    logPath envW =
      envW.localDataDir ++ "/" ++ LOGS_DIR_NAME ++ "/" ++
        (toString envW.startTime ++ "-" ++ envW.network) ++ ".jpg" :=
  C8_local_artifacts envW rfl rfl (by decide)

/-- C9: for every run where a bucket name is configured but the existence
check fails, the only network operation is the check itself (so no
download or upload follows), the failure is logged, and the run otherwise
behaves exactly as a local-only run: same files written, same dataset
construction, exit code 0. -/
theorem C9_bucket_failure_nonfatal (env : Env) (b : String)
    (hb : env.s3BucketName = some b)
    (hx : env.bucketExists = false) :
    (mainRun env).s3Ops = [S3Op.bucketCheck b] ∧
    Msg.bucketNotAccessible b ∈ (mainRun env).printed ∧
    (mainRun env).filesWritten =
      (mainRun { env with s3BucketName := none }).filesWritten ∧
    (mainRun env).datasetConstructed =
      (mainRun { env with s3BucketName := none }).datasetConstructed ∧
    (mainRun env).exitCode = 0 := by
  refine ⟨?_, ?_, ?_, ?_, mainRun_exitCode env⟩ <;>
  · by_cases hex : env.labelFileExists = true
    · by_cases hl : (splitlines env.labelFileContent).length = 0 <;>
        simp [mainRun, bucketPhase, downloadPhase, trainPhase, earlyResult,
          modelStatePath, logPath, runName, hb, hx, hex, hl]
    · simp [mainRun, bucketPhase, downloadPhase, earlyResult, hb, hx, hex]

/-- Witness for C9 on an environment whose configured bucket fails the
existence check. -/
theorem C9_bucket_failure_nonfatal_witness :
    (mainRun envBadBucket).s3Ops = [S3Op.bucketCheck "mybucket"] ∧
    Msg.bucketNotAccessible "mybucket" ∈ (mainRun envBadBucket).printed ∧
    (mainRun envBadBucket).filesWritten =
      (mainRun { envBadBucket with s3BucketName := none }).filesWritten ∧
    (mainRun envBadBucket).datasetConstructed =
      (mainRun { envBadBucket with s3BucketName := none
        }).datasetConstructed ∧
    (mainRun envBadBucket).exitCode = 0 :=
  C9_bucket_failure_nonfatal envBadBucket "mybucket" rfl rfl

theorem trainLoop_eq (n : Nat) (stats : Nat → List Int) :
    trainLoop n stats =
      ((List.range n).map
        (fun e => (stats e).getD AVERAGE_PRECISION_STAT_INDEX 0),
       (List.range n).map
        (fun e => (stats e).getD AVERAGE_RECALL_STAT_INDEX 0)) := by
  induction n with
  | zero => rfl
  | succ n ih =>
      have h1 : trainLoop (n + 1) stats =
          ((trainLoop n stats).1 ++
            [(stats n).getD AVERAGE_PRECISION_STAT_INDEX 0],
           (trainLoop n stats).2 ++
            [(stats n).getD AVERAGE_RECALL_STAT_INDEX 0]) := by
        simp [trainLoop, List.range_succ]
      rw [h1, ih]
      simp [List.range_succ]

/-- C10: for every run of n epochs, each epoch appends one entry to each
metric history (the statistics element at index 0 to the precision
history, the element at index 8 to the recall history), so both histories
have exactly n entries in epoch order. -/
theorem C10_metric_histories (n e : Nat) (stats : Nat → List Int)
    (h : e < n) :
    (trainLoop n stats).1.length = n ∧
    (trainLoop n stats).2.length = n ∧
    (trainLoop n stats).1.get? e =
      some ((stats e).getD AVERAGE_PRECISION_STAT_INDEX 0) ∧
    (trainLoop n stats).2.get? e =
      some ((stats e).getD AVERAGE_RECALL_STAT_INDEX 0) := by
  rw [trainLoop_eq]
  have hr : (List.range n)[e]? = some e := List.getElem?_range h
  refine ⟨by simp, by simp, ?_, ?_⟩ <;>
    simp [List.get?_eq_getElem?, List.getElem?_map, hr]

/-- Witness for C10 at epoch 1 of a two-epoch run whose statistics vector
holds 7 at index 0 and 9 at index 8. -/
theorem C10_metric_histories_witness :
    (trainLoop 2 statsW).1.length = 2 ∧
    (trainLoop 2 statsW).2.length = 2 ∧
    (trainLoop 2 statsW).1.get? 1 = some 7 ∧
    (trainLoop 2 statsW).2.get? 1 = some 9 := by
  simpa [statsW, AVERAGE_PRECISION_STAT_INDEX, AVERAGE_RECALL_STAT_INDEX]
    using C10_metric_histories 2 1 statsW (by decide)
